import Mathlib

/-!
Verification of the aby-whiteboard transform-and-hit-testing engine.

The TypeScript source is shallowly embedded here: JavaScript numbers are
modelled as real numbers, `Math.hypot` as the Euclidean norm,
`Math.atan2 y x` as the argument of the complex number `x + y*I`, and the
gesture handlers as pure functions on an explicit board state.  Each
definition mirrors one function of the source (`src/utilities.ts`,
`src/transform.ts` / the media classes, `src/components/Whiteboard.tsx`,
and the whiteboard helper module).
-/

namespace Whiteboard

noncomputable section

/-- 2D vector `{x, y}` (`src/types`): used both for normalized board
fractions and for pixel coordinates. -/
@[ext]
structure Vector where
  x : ℝ
  y : ℝ

/-- Drawable size `{width, height, dpr}` (`src/types`). -/
structure Resolution where
  width : ℝ
  height : ℝ
  dpr : ℝ

/-- `getLength` of `src/utilities.ts`: `Math.hypot(x, y)`. -/
def getLength (vector : Vector) : ℝ :=
  Real.sqrt (vector.x ^ 2 + vector.y ^ 2)

/-- `clampValue` of `src/utilities.ts`:
`Math.min(max, Math.max(min, value))` (parameters `min`/`max` renamed to
`low`/`high`). -/
def clampValue (value low high : ℝ) : ℝ :=
  min high (max low value)

/-- `Math.atan2(y, x)`: the argument of the complex number `x + y*I`,
in `(-pi, pi]`, with `atan2 0 0 = 0`. -/
def atan2 (y x : ℝ) : ℝ :=
  Complex.arg ⟨x, y⟩

/-- `MediaTransform` of `src/transform.ts`: normalized per-item transform.
The constructor default `rotation = 0` is kept. -/
structure MediaTransform where
  translation : Vector
  scale : ℝ
  rotation : ℝ := 0

/-- `RenderTransform` of `src/transform.ts`: derived pixel-space transform. -/
structure RenderTransform where
  center : Vector
  scale : Vector
  rotation : ℝ
  translation : Vector

/-- `TransformMode` of `src/transform.ts`. -/
inductive TransformMode where
  | move
  | scale
  | rotate

/-- `ActiveTransform` of `src/transform.ts`: the gesture-start snapshot. -/
structure ActiveTransform where
  id : String
  mode : TransformMode
  startTransform : MediaTransform
  startPoint : Vector
  startDistance : ℝ
  startAngle : ℝ

/-- `MediaItem` of the media module, restricted to the fields the geometry
engine reads (`id`, `baseSize`, `transform`, `aspect`, `anchor`); the media
element, texture, filter parameters and loading state are irrelevant to the
claims and omitted. -/
structure MediaItem where
  id : String
  baseSize : ℝ
  transform : Option MediaTransform
  aspect : ℝ
  anchor : Vector

/-- `MediaItem.calculateInitialTransform` of the media module
(`new MediaTransform(translation, scale)` leaves `rotation` at its default
`0`; the `scale` argument is passed through unclamped). -/
def MediaItem.calculateInitialTransform (items : List MediaItem) (scale : ℝ) :
    MediaTransform :=
  let x : ℝ := (((items.length % 3 : ℕ) : ℝ) - 1) * 0.275
  let y : ℝ := (((items.length / 3 % 3 : ℕ) : ℝ) - 1) * 0.25
  { translation :=
      { x := clampValue (0.5 + x) 0.15 0.85
        y := clampValue (0.5 + y) 0.15 0.85 }
    scale := scale }

namespace Draft

/-- `calculateInitialTransform` of the alternate utilities draft
(`src/unnamed/part_001`): same grid with constants `0.12`/`0.1` and an
explicit `rotation: 0`. -/
def calculateInitialTransform (items : List MediaItem) (scale : ℝ) :
    MediaTransform :=
  let x : ℝ := (((items.length % 3 : ℕ) : ℝ) - 1) * 0.12
  let y : ℝ := (((items.length / 3 % 3 : ℕ) : ℝ) - 1) * 0.1
  { translation :=
      { x := clampValue (0.5 + x) 0.15 0.85
        y := clampValue (0.5 + y) 0.15 0.85 }
    scale := scale
    rotation := 0 }

end Draft

/-- `calculateTransformedVertices` of `src/utilities.ts` (also duplicated in
the whiteboard helper module): the four corners of the rotated rectangle, in
local order top-left, top-right, bottom-right, bottom-left. -/
def calculateTransformedVertices (transform : RenderTransform) : List Vector :=
  let w := transform.scale.x * 0.5
  let h := transform.scale.y * 0.5
  let sin := Real.sin transform.rotation
  let cos := Real.cos transform.rotation
  let vertices : List Vector := [⟨-w, -h⟩, ⟨w, -h⟩, ⟨w, h⟩, ⟨-w, h⟩]
  vertices.map fun vertex =>
    ⟨transform.center.x + vertex.x * cos - vertex.y * sin,
     transform.center.y + vertex.x * sin + vertex.y * cos⟩

/-- `calculateRenderTransform` of the whiteboard helper module
(`src/unnamed/part_006`): derives the pixel-space render transform from an
item and the current resolution. -/
def calculateRenderTransform (item : MediaItem) (resolution : Resolution) :
    RenderTransform :=
  match item.transform with
  | none =>
    let translation : Vector :=
      ⟨item.anchor.x * resolution.width, item.anchor.y * resolution.height⟩
    let width := item.baseSize * resolution.width
    let height := width / item.aspect
    let center : Vector :=
      ⟨translation.x + width * 0.5, translation.y + height * 0.5⟩
    ⟨center, ⟨width, height⟩, 0, translation⟩
  | some transform =>
    let width := transform.scale * resolution.width
    let height := width / item.aspect
    let center : Vector :=
      ⟨transform.translation.x * resolution.width,
       transform.translation.y * resolution.height⟩
    let translation : Vector :=
      ⟨center.x - width * 0.5, center.y - height * 0.5⟩
    ⟨center, ⟨width, height⟩, transform.rotation, translation⟩

/-- `isPointWithinTransform` of the whiteboard helper module: point-in-rotated-
rectangle test (inverse-rotate into the local frame, compare with half
extents). -/
def isPointWithinTransform (point : Vector) (transform : RenderTransform) :
    Prop :=
  let x := point.x - transform.center.x
  let y := point.y - transform.center.y
  let cos := Real.cos (-transform.rotation)
  let sin := Real.sin (-transform.rotation)
  let localX := x * cos - y * sin
  let localY := x * sin + y * cos
  |localX| ≤ transform.scale.x * 0.5 ∧ |localY| ≤ transform.scale.y * 0.5

open Classical in
/-- The loop body of `getSelectedItem`: first item of the list whose render
transform contains the point. -/
def findHit (point : Vector) (resolution : Resolution) :
    List MediaItem → Option MediaItem
  | [] => none
  | item :: rest =>
    if isPointWithinTransform point (calculateRenderTransform item resolution)
    then some item
    else findHit point resolution rest

/-- `getSelectedItem` of the whiteboard helper module: iterates the registry
from the last index down to 0 and returns the first hit. -/
def getSelectedItem (point : Vector) (items : List MediaItem)
    (resolution : Resolution) : Option MediaItem :=
  findHit point resolution items.reverse

/-- The `ActiveTransform` constructed by `onPointerDown`
(`src/components/Whiteboard.tsx` lines 247-271) once a transformed item was
hit: snapshot of the item's transform, the pointer-down point, and the
derived start distance (floored at 1) and start angle. -/
def startActiveTransform (id : String) (mode : TransformMode)
    (startTransform : MediaTransform) (startPoint : Vector)
    (resolution : Resolution) : ActiveTransform :=
  let center : Vector :=
    ⟨startTransform.translation.x * resolution.width,
     startTransform.translation.y * resolution.height⟩
  let startVector : Vector :=
    ⟨startPoint.x - center.x, startPoint.y - center.y⟩
  ⟨id, mode, startTransform, startPoint,
    max 1 (getLength startVector),
    atan2 startVector.y startVector.x⟩

/-- `getTransformVector` of `src/components/Whiteboard.tsx`: vector from the
snapshot's center (in pixels) to the current pointer (the source reuses the
name `startPoint` for the current pointer). -/
def getTransformVector (activeTransform : ActiveTransform)
    (startPoint : Vector) (resolution : Resolution) : Vector :=
  let center : Vector :=
    ⟨activeTransform.startTransform.translation.x * resolution.width,
     activeTransform.startTransform.translation.y * resolution.height⟩
  ⟨startPoint.x - center.x, startPoint.y - center.y⟩

/-- `applyMoveTransform` of `src/components/Whiteboard.tsx`, as the
`MediaTransform` it writes into the active item. -/
def applyMoveTransform (activeTransform : ActiveTransform)
    (startPoint : Vector) (resolution : Resolution) : MediaTransform :=
  let x := startPoint.x - activeTransform.startPoint.x
  let y := startPoint.y - activeTransform.startPoint.y
  { translation :=
      { x := clampValue
          (activeTransform.startTransform.translation.x + x / resolution.width)
          0 1
        y := clampValue
          (activeTransform.startTransform.translation.y + y / resolution.height)
          0 1 }
    scale := activeTransform.startTransform.scale
    rotation := activeTransform.startTransform.rotation }

/-- `applyScaleTransform` of `src/components/Whiteboard.tsx`, as the
`MediaTransform` it writes into the active item. -/
def applyScaleTransform (activeTransform : ActiveTransform)
    (startPoint : Vector) (resolution : Resolution) : MediaTransform :=
  let vector := getTransformVector activeTransform startPoint resolution
  let scaleFactor := getLength vector / activeTransform.startDistance
  { translation := activeTransform.startTransform.translation
    scale :=
      clampValue (activeTransform.startTransform.scale * scaleFactor) 0.08 1.4
    rotation := activeTransform.startTransform.rotation }

/-- `applyRotateTransform` of `src/components/Whiteboard.tsx`, as the
`MediaTransform` it writes into the active item. -/
def applyRotateTransform (activeTransform : ActiveTransform)
    (startPoint : Vector) (resolution : Resolution) : MediaTransform :=
  let vector := getTransformVector activeTransform startPoint resolution
  let angle := atan2 vector.y vector.x
  { translation := activeTransform.startTransform.translation
    scale := activeTransform.startTransform.scale
    rotation :=
      activeTransform.startTransform.rotation +
        (angle - activeTransform.startAngle) }

/-- The whiteboard state the pointer-move handler touches: the item registry
(`mediaItemsRef`) and the current gesture snapshot (`activeTransformRef`). -/
structure BoardState where
  items : List MediaItem
  activeTransform : Option ActiveTransform

/-- `mediaItemsRef.current.find((item) => item.id === id)`: first item of the
registry with the given id. -/
def findItem (items : List MediaItem) (id : String) : Option MediaItem :=
  match items with
  | [] => none
  | item :: rest => if item.id = id then some item else findItem rest id

/-- The registry after `activeItem.transform = t`: the first item whose id
matches gets the new transform, all others are untouched. -/
def writeTransform (items : List MediaItem) (id : String)
    (t : MediaTransform) : List MediaItem :=
  match items with
  | [] => []
  | item :: rest =>
    if item.id = id then { item with transform := some t } :: rest
    else item :: writeTransform rest id t

open Classical in
/-- `onPointerMove` of `src/components/Whiteboard.tsx` (lines 363-402), as a
transition on the board state given the canvas point of the event: no-op when
no gesture is active or the resolution has a zero dimension; aborts the
gesture when the active item is gone or lost its transform; otherwise writes
the per-mode transform. -/
def onPointerMove (state : BoardState) (point : Vector)
    (resolution : Resolution) : BoardState :=
  match state.activeTransform with
  | none => state
  | some activeTransform =>
    if resolution.width = 0 ∨ resolution.height = 0 then state
    else
      match findItem state.items activeTransform.id with
      | none => { state with activeTransform := none }
      | some activeItem =>
        match activeItem.transform with
        | none => { state with activeTransform := none }
        | some _ =>
          match activeTransform.mode with
          | TransformMode.move =>
            { state with
                items := writeTransform state.items activeTransform.id
                  (applyMoveTransform activeTransform point resolution) }
          | TransformMode.scale =>
            { state with
                items := writeTransform state.items activeTransform.id
                  (applyScaleTransform activeTransform point resolution) }
          | TransformMode.rotate =>
            { state with
                items := writeTransform state.items activeTransform.id
                  (applyRotateTransform activeTransform point resolution) }

end

/-! ### Helper lemmas about `clampValue` -/

theorem clampValue_le (value low high : ℝ) : clampValue value low high ≤ high :=
  min_le_left _ _

theorem le_clampValue (value low high : ℝ) (h : low ≤ high) :
    low ≤ clampValue value low high :=
  le_min h (le_max_left _ _)

theorem clampValue_eq_of (value low high : ℝ) (h1 : low ≤ value)
    (h2 : value ≤ high) : clampValue value low high = value := by
  rw [clampValue, max_eq_right h1, min_eq_right h2]

theorem clampValue_eq_high (value low high : ℝ) (h1 : low ≤ value)
    (h2 : high ≤ value) : clampValue value low high = high := by
  rw [clampValue, max_eq_right h1, min_eq_left h2]

theorem clampValue_idem (value low high : ℝ) :
    clampValue (clampValue value low high) low high =
      clampValue value low high := by
  simp only [clampValue, min_def, max_def]
  split_ifs <;> linarith

/-! ### Helper lemmas about `getLength` -/

theorem getLength_zero : getLength ⟨0, 0⟩ = 0 := by
  rw [getLength]
  norm_num

theorem getLength_of_nonneg (x : ℝ) (h : 0 ≤ x) : getLength ⟨x, 0⟩ = x := by
  rw [getLength]
  norm_num
  exact Real.sqrt_sq h

/-! ### Helper lemmas about `findHit` / `getSelectedItem` -/

theorem findHit_eq_none (p : Vector) (res : Resolution) (l : List MediaItem)
    (h : ∀ item ∈ l,
      ¬ isPointWithinTransform p (calculateRenderTransform item res)) :
    findHit p res l = none := by
  induction l with
  | nil => rfl
  | cons item rest ih =>
    simp only [findHit]
    rw [if_neg (h item (List.mem_cons_self item rest))]
    exact ih fun x hx => h x (List.mem_cons_of_mem item hx)

theorem findHit_append (p : Vector) (res : Resolution) (l₁ l₂ : List MediaItem)
    (h : ∀ item ∈ l₁,
      ¬ isPointWithinTransform p (calculateRenderTransform item res)) :
    findHit p res (l₁ ++ l₂) = findHit p res l₂ := by
  induction l₁ with
  | nil => rfl
  | cons item rest ih =>
    simp only [List.cons_append, findHit]
    rw [if_neg (h item (List.mem_cons_self item rest))]
    exact ih fun x hx => h x (List.mem_cons_of_mem item hx)

theorem findHit_cons_hit (p : Vector) (res : Resolution) (item : MediaItem)
    (rest : List MediaItem)
    (h : isPointWithinTransform p (calculateRenderTransform item res)) :
    findHit p res (item :: rest) = some item := by
  simp only [findHit]
  rw [if_pos h]

/-- The item returned by `getSelectedItem` is the topmost hit: any item whose
rectangle contains the point and above which (later in the registry) no
rectangle contains it. -/
theorem getSelectedItem_topmost (p : Vector) (res : Resolution)
    (pre : List MediaItem) (it : MediaItem) (post : List MediaItem)
    (hit : isPointWithinTransform p (calculateRenderTransform it res))
    (hmiss : ∀ item ∈ post,
      ¬ isPointWithinTransform p (calculateRenderTransform item res)) :
    getSelectedItem p (pre ++ it :: post) res = some it := by
  rw [getSelectedItem]
  have hrev : (pre ++ it :: post).reverse = post.reverse ++ it :: pre.reverse := by
    simp
  rw [hrev,
    findHit_append _ _ _ _ (fun x hx => hmiss x (List.mem_reverse.mp hx)),
    findHit_cons_hit _ _ _ _ hit]

/-! ### Claims -/

/-- C1 (amended): the gesture writes clamp exactly the component they move —
move clamps both translation components into `[0, 1]` and copies scale and
rotation from the snapshot; scale clamps scale into `[0.08, 1.4]` and copies
translation and rotation; rotate copies translation and scale.  The transform
assigned at creation clamps both translation components into
`[0.15, 0.85] ⊆ [0, 1]`, but its scale is the passed base size, unclamped.
Clamping an already-clamped value is a no-op. -/
theorem c1_mutation_bounds :
    (∀ (a : ActiveTransform) (p : Vector) (res : Resolution),
      0 ≤ (applyMoveTransform a p res).translation.x ∧
      (applyMoveTransform a p res).translation.x ≤ 1 ∧
      0 ≤ (applyMoveTransform a p res).translation.y ∧
      (applyMoveTransform a p res).translation.y ≤ 1 ∧
      (applyMoveTransform a p res).scale = a.startTransform.scale ∧
      (applyMoveTransform a p res).rotation = a.startTransform.rotation) ∧
    (∀ (a : ActiveTransform) (p : Vector) (res : Resolution),
      0.08 ≤ (applyScaleTransform a p res).scale ∧
      (applyScaleTransform a p res).scale ≤ 1.4 ∧
      (applyScaleTransform a p res).translation = a.startTransform.translation ∧
      (applyScaleTransform a p res).rotation = a.startTransform.rotation) ∧
    (∀ (a : ActiveTransform) (p : Vector) (res : Resolution),
      (applyRotateTransform a p res).translation = a.startTransform.translation ∧
      (applyRotateTransform a p res).scale = a.startTransform.scale) ∧
    (∀ (items : List MediaItem) (s : ℝ),
      0.15 ≤ (MediaItem.calculateInitialTransform items s).translation.x ∧
      (MediaItem.calculateInitialTransform items s).translation.x ≤ 0.85 ∧
      0.15 ≤ (MediaItem.calculateInitialTransform items s).translation.y ∧
      (MediaItem.calculateInitialTransform items s).translation.y ≤ 0.85 ∧
      (MediaItem.calculateInitialTransform items s).scale = s) ∧
    (∀ (v low high : ℝ),
      clampValue (clampValue v low high) low high = clampValue v low high) := by
  refine ⟨?_, ?_, ?_, ?_, ?_⟩
  · intro a p res
    exact ⟨le_clampValue _ _ _ (by norm_num), clampValue_le _ _ _,
      le_clampValue _ _ _ (by norm_num), clampValue_le _ _ _, rfl, rfl⟩
  · intro a p res
    exact ⟨le_clampValue _ _ _ (by norm_num), clampValue_le _ _ _, rfl, rfl⟩
  · intro a p res
    exact ⟨rfl, rfl⟩
  · intro items s
    exact ⟨le_clampValue _ _ _ (by norm_num), clampValue_le _ _ _,
      le_clampValue _ _ _ (by norm_num), clampValue_le _ _ _, rfl⟩
  · intro v low high
    exact clampValue_idem v low high

/-- C1, counterexample to the claim as stated: the transform assigned at item
creation does not clamp its scale — creating an item with base size `2` in an
empty registry yields a transform whose scale is `2`, outside `[0.08, 1.4]`. -/
theorem c1_counterexample :
    (MediaItem.calculateInitialTransform ([] : List MediaItem) 2).scale = 2 ∧
    ¬ (MediaItem.calculateInitialTransform ([] : List MediaItem) 2).scale ≤ 1.4 :=
  ⟨rfl, by norm_num [MediaItem.calculateInitialTransform]⟩

/-- C4: a pointer-move in move mode writes
`translation.x = clamp(start.x + (point.x - startPoint.x)/width, 0, 1)`
(similarly for y) and copies scale and rotation from the snapshot; in the
spec's scenario (pointer-down at `(500, 250)`, move to `(600, 250)`,
resolution `1000x500`, item translation `(0.5, 0.5)`) the written translation
is `(0.6, 0.5)`. -/
theorem c4_move_formula :
    (∀ (a : ActiveTransform) (p : Vector) (res : Resolution),
      (applyMoveTransform a p res).translation.x =
        clampValue
          (a.startTransform.translation.x + (p.x - a.startPoint.x) / res.width)
          0 1 ∧
      (applyMoveTransform a p res).translation.y =
        clampValue
          (a.startTransform.translation.y + (p.y - a.startPoint.y) / res.height)
          0 1 ∧
      (applyMoveTransform a p res).scale = a.startTransform.scale ∧
      (applyMoveTransform a p res).rotation = a.startTransform.rotation) ∧
    (applyMoveTransform
        (startActiveTransform "a" TransformMode.move ⟨⟨0.5, 0.5⟩, 0.25, 0⟩
          ⟨500, 250⟩ ⟨1000, 500, 1⟩)
        ⟨600, 250⟩ ⟨1000, 500, 1⟩).translation = ⟨0.6, 0.5⟩ := by
  constructor
  · intro a p res
    exact ⟨rfl, rfl, rfl, rfl⟩
  · simp only [applyMoveTransform, startActiveTransform, Vector.mk.injEq]
    constructor <;>
      · rw [clampValue_eq_of _ _ _ (by norm_num) (by norm_num)]
        norm_num

/-- C9: the Nth placed item (N = registry length at creation) gets translation
`x = clamp(0.5 + ((N mod 3) - 1) * dx, 0.15, 0.85)` and
`y = clamp(0.5 + ((N / 3 mod 3) - 1) * dy, 0.15, 0.85)` with rotation 0 and
scale equal to the passed base size — with `dx = 0.275`, `dy = 0.25` in the
canonical media module and `dx = 0.12`, `dy = 0.1` in the utilities draft —
the grid repeats after 9 items, and both components always lie in
`[0.15, 0.85]`. -/
theorem c9_initial_placement_grid :
    (∀ (items : List MediaItem) (s : ℝ),
      (MediaItem.calculateInitialTransform items s).translation.x =
        clampValue (0.5 + (((items.length % 3 : ℕ) : ℝ) - 1) * 0.275)
          0.15 0.85 ∧
      (MediaItem.calculateInitialTransform items s).translation.y =
        clampValue (0.5 + (((items.length / 3 % 3 : ℕ) : ℝ) - 1) * 0.25)
          0.15 0.85 ∧
      (MediaItem.calculateInitialTransform items s).rotation = 0 ∧
      (MediaItem.calculateInitialTransform items s).scale = s) ∧
    (∀ (items items' : List MediaItem) (s s' : ℝ),
      items'.length = items.length + 9 →
      (MediaItem.calculateInitialTransform items' s').translation =
        (MediaItem.calculateInitialTransform items s).translation) ∧
    (∀ (items : List MediaItem) (s : ℝ),
      0.15 ≤ (MediaItem.calculateInitialTransform items s).translation.x ∧
      (MediaItem.calculateInitialTransform items s).translation.x ≤ 0.85 ∧
      0.15 ≤ (MediaItem.calculateInitialTransform items s).translation.y ∧
      (MediaItem.calculateInitialTransform items s).translation.y ≤ 0.85) ∧
    (∀ (items : List MediaItem) (s : ℝ),
      (Draft.calculateInitialTransform items s).translation.x =
        clampValue (0.5 + (((items.length % 3 : ℕ) : ℝ) - 1) * 0.12)
          0.15 0.85 ∧
      (Draft.calculateInitialTransform items s).translation.y =
        clampValue (0.5 + (((items.length / 3 % 3 : ℕ) : ℝ) - 1) * 0.1)
          0.15 0.85 ∧
      (Draft.calculateInitialTransform items s).rotation = 0 ∧
      (Draft.calculateInitialTransform items s).scale = s) := by
  refine ⟨?_, ?_, ?_, ?_⟩
  · intro items s
    exact ⟨rfl, rfl, rfl, rfl⟩
  · intro items items' s s' h
    have h3 : items'.length % 3 = items.length % 3 := by omega
    have h9 : items'.length / 3 % 3 = items.length / 3 % 3 := by omega
    simp only [MediaItem.calculateInitialTransform, h3, h9]
  · intro items s
    exact ⟨le_clampValue _ _ _ (by norm_num), clampValue_le _ _ _,
      le_clampValue _ _ _ (by norm_num), clampValue_le _ _ _⟩
  · intro items s
    exact ⟨rfl, rfl, rfl, rfl⟩

/-- C3: for an item with a present transform, the derived render transform
has width `transform.scale * resolution.width`, height `width / aspect`,
center `translation * resolution` with no offset, the transform's rotation,
and top-left translation `center - 0.5 * (width, height)`; the spec's
scenario (resolution `1000x500`, translation `(0.5, 0.5)`, scale `0.25`,
rotation 0, aspect 1) yields center `(500, 250)`, scale `(250, 250)`,
rotation 0, translation `(375, 125)`. -/
theorem c3_render_transform_formula :
    (∀ (item : MediaItem) (res : Resolution) (t : MediaTransform),
      item.transform = some t →
      (calculateRenderTransform item res).scale.x = t.scale * res.width ∧
      (calculateRenderTransform item res).scale.y =
        t.scale * res.width / item.aspect ∧
      (calculateRenderTransform item res).center =
        ⟨t.translation.x * res.width, t.translation.y * res.height⟩ ∧
      (calculateRenderTransform item res).rotation = t.rotation ∧
      (calculateRenderTransform item res).translation.x =
        t.translation.x * res.width - 0.5 * (t.scale * res.width) ∧
      (calculateRenderTransform item res).translation.y =
        t.translation.y * res.height -
          0.5 * (t.scale * res.width / item.aspect)) ∧
    calculateRenderTransform
        ⟨"a", 0.25, some ⟨⟨0.5, 0.5⟩, 0.25, 0⟩, 1, ⟨0.5, 0.5⟩⟩
        ⟨1000, 500, 1⟩ =
      ⟨⟨500, 250⟩, ⟨250, 250⟩, 0, ⟨375, 125⟩⟩ := by
  constructor
  · intro item res t h
    refine ⟨?_, ?_, ?_, ?_, ?_, ?_⟩ <;> simp only [calculateRenderTransform, h]
      <;> ring
  · simp only [calculateRenderTransform]
    norm_num [RenderTransform.mk.injEq, Vector.mk.injEq]

/-- C5: the start distance recorded at every gesture start is at least 1
(the floor of 1 prevents a zero divisor in the scale gesture even when the
pointer-down lands exactly on the item's center); in the degenerate scenario
(pointer-down at the center `(500, 250)` of the `1000x500` board, snapshot
scale `0.25`) the start distance is exactly 1, moving to `(600, 250)` gives
factor `100 / 1 = 100`, and the written scale clamps to the ceiling 1.4. -/
theorem c5_start_distance_floor :
    (∀ (id : String) (mode : TransformMode) (t : MediaTransform) (p : Vector)
      (res : Resolution),
      1 ≤ (startActiveTransform id mode t p res).startDistance) ∧
    (startActiveTransform "a" TransformMode.scale ⟨⟨0.5, 0.5⟩, 0.25, 0⟩
        ⟨500, 250⟩ ⟨1000, 500, 1⟩).startDistance = 1 ∧
    getLength
        (getTransformVector
          (startActiveTransform "a" TransformMode.scale ⟨⟨0.5, 0.5⟩, 0.25, 0⟩
            ⟨500, 250⟩ ⟨1000, 500, 1⟩)
          ⟨600, 250⟩ ⟨1000, 500, 1⟩) /
      (startActiveTransform "a" TransformMode.scale ⟨⟨0.5, 0.5⟩, 0.25, 0⟩
        ⟨500, 250⟩ ⟨1000, 500, 1⟩).startDistance = 100 ∧
    (applyScaleTransform
        (startActiveTransform "a" TransformMode.scale ⟨⟨0.5, 0.5⟩, 0.25, 0⟩
          ⟨500, 250⟩ ⟨1000, 500, 1⟩)
        ⟨600, 250⟩ ⟨1000, 500, 1⟩).scale = 1.4 := by
  have hd : (startActiveTransform "a" TransformMode.scale ⟨⟨0.5, 0.5⟩, 0.25, 0⟩
      ⟨500, 250⟩ ⟨1000, 500, 1⟩).startDistance = 1 := by
    simp only [startActiveTransform]
    norm_num
    rw [getLength_zero]
    norm_num
  have hlen : getLength
      (getTransformVector
        (startActiveTransform "a" TransformMode.scale ⟨⟨0.5, 0.5⟩, 0.25, 0⟩
          ⟨500, 250⟩ ⟨1000, 500, 1⟩)
        ⟨600, 250⟩ ⟨1000, 500, 1⟩) = 100 := by
    simp only [getTransformVector, startActiveTransform]
    norm_num
    exact getLength_of_nonneg 100 (by norm_num)
  refine ⟨?_, hd, ?_, ?_⟩
  · intro id mode t p res
    exact le_max_left 1 _
  · rw [hlen, hd]
    norm_num
  · simp only [applyScaleTransform]
    rw [hlen, hd]
    rw [clampValue_eq_high _ _ _ (by norm_num [startActiveTransform])
      (by norm_num [startActiveTransform])]

/-- C6: a pointer-move in rotate mode writes
`rotation = startRotation + (atan2(vector.y, vector.x) - startAngle)` where
`vector` points from the snapshot's pixel center to the pointer, and copies
translation and scale from the snapshot; no wraparound normalization is
applied — every real number is attainable as a written rotation. -/
theorem c6_rotate_formula :
    (∀ (a : ActiveTransform) (p : Vector) (res : Resolution),
      (applyRotateTransform a p res).rotation =
        a.startTransform.rotation +
          (atan2 (getTransformVector a p res).y (getTransformVector a p res).x -
            a.startAngle) ∧
      (applyRotateTransform a p res).translation = a.startTransform.translation ∧
      (applyRotateTransform a p res).scale = a.startTransform.scale) ∧
    (∀ r : ℝ, ∃ (a : ActiveTransform) (p : Vector) (res : Resolution),
      (applyRotateTransform a p res).rotation = r) := by
  constructor
  · intro a p res
    exact ⟨rfl, rfl, rfl⟩
  · intro r
    refine ⟨⟨"a", TransformMode.rotate, ⟨⟨0, 0⟩, 1, r⟩, ⟨0, 0⟩, 1, 0⟩,
      ⟨1, 0⟩, ⟨1, 1, 1⟩, ?_⟩
    have h1 : ((⟨1 - 0 * 1, 0 - 0 * 1⟩ : ℂ)) = 1 := by
      apply Complex.ext <;> simp
    simp only [applyRotateTransform, getTransformVector, atan2, h1,
      Complex.arg_one]
    ring

/-- C8: with rotation 0 the rotated-rectangle corner computation returns
exactly the axis-aligned corners `center ± extent / 2`, in the local order
top-left, top-right, bottom-right, bottom-left. -/
theorem c8_rect_corners_rotation_zero :
    ∀ (center extent translation : Vector),
      calculateTransformedVertices ⟨center, extent, 0, translation⟩ =
        [⟨center.x - extent.x / 2, center.y - extent.y / 2⟩,
         ⟨center.x + extent.x / 2, center.y - extent.y / 2⟩,
         ⟨center.x + extent.x / 2, center.y + extent.y / 2⟩,
         ⟨center.x - extent.x / 2, center.y + extent.y / 2⟩] := by
  intro center extent translation
  simp only [calculateTransformedVertices, Real.sin_zero, Real.cos_zero,
    List.map_cons, List.map_nil, List.cons.injEq, and_true,
    Vector.mk.injEq]
  norm_num
  refine ⟨⟨by ring, by ring⟩, ⟨by ring, by ring⟩, ⟨by ring, by ring⟩,
    by ring, by ring⟩

/-- C2: hit-testing iterates the registry in reverse order and returns the
first item whose rotated rectangle contains the point — if no item contains
the point the result is `none`; an item whose rectangle contains the point
and above which no rectangle contains it is selected; in index terms, for
overlapping items at indices `i < j` with nothing above `j` containing the
point, item `j` (later-added) wins, and in a two-item registry a point inside
both rectangles always selects the second item. -/
theorem c2_hit_testing_order :
    (∀ (p : Vector) (items : List MediaItem) (res : Resolution),
      (∀ item ∈ items,
        ¬ isPointWithinTransform p (calculateRenderTransform item res)) →
      getSelectedItem p items res = none) ∧
    (∀ (p : Vector) (res : Resolution) (pre : List MediaItem)
      (it : MediaItem) (post : List MediaItem),
      isPointWithinTransform p (calculateRenderTransform it res) →
      (∀ item ∈ post,
        ¬ isPointWithinTransform p (calculateRenderTransform item res)) →
      getSelectedItem p (pre ++ it :: post) res = some it) ∧
    (∀ (p : Vector) (res : Resolution) (items : List MediaItem) (i j : ℕ)
      (hi : i < items.length) (hj : j < items.length),
      i < j →
      isPointWithinTransform p (calculateRenderTransform items[i] res) →
      isPointWithinTransform p (calculateRenderTransform items[j] res) →
      (∀ (k : ℕ) (hk : k < items.length), j < k →
        ¬ isPointWithinTransform p (calculateRenderTransform items[k] res)) →
      getSelectedItem p items res = some items[j]) ∧
    (∀ (p : Vector) (res : Resolution) (a b : MediaItem),
      isPointWithinTransform p (calculateRenderTransform a res) →
      isPointWithinTransform p (calculateRenderTransform b res) →
      getSelectedItem p [a, b] res = some b) := by
  refine ⟨?_, ?_, ?_, ?_⟩
  · intro p items res h
    exact findHit_eq_none p res items.reverse
      fun x hx => h x (List.mem_reverse.mp hx)
  · intro p res pre it post hit hmiss
    exact getSelectedItem_topmost p res pre it post hit hmiss
  · intro p res items i j hi hj hij hwi hwj htop
    have hsplit : items.take j ++ items[j] :: items.drop (j + 1) = items := by
      rw [List.cons_getElem_drop_succ]
      exact List.take_append_drop j items
    have hmiss : ∀ item ∈ items.drop (j + 1),
        ¬ isPointWithinTransform p (calculateRenderTransform item res) := by
      intro x hx
      obtain ⟨n, hn, hxe⟩ := List.mem_iff_getElem.mp hx
      subst hxe
      have hn' : j + 1 + n < items.length := by
        rw [List.length_drop] at hn
        omega
      rw [List.getElem_drop]
      exact htop (j + 1 + n) hn' (by omega)
    have := getSelectedItem_topmost p res (items.take j) (items[j])
      (items.drop (j + 1)) hwj hmiss
    rw [hsplit] at this
    exact this
  · intro p res a b ha hb
    have := getSelectedItem_topmost p res [a] b [] hb (by intro x hx; cases hx)
    simpa using this

/-- C7: a pointer-move during an active gesture whose item id is no longer in
the registry, or whose item lost its transform, discards the gesture (the
active transform becomes `none`) while the registry is left untouched — no
transform is written and the removed item is not re-added. -/
theorem c7_stale_gesture_abort :
    ∀ (s : BoardState) (p : Vector) (res : Resolution) (a : ActiveTransform),
      s.activeTransform = some a →
      res.width ≠ 0 → res.height ≠ 0 →
      (findItem s.items a.id = none ∨
        ∃ item, findItem s.items a.id = some item ∧ item.transform = none) →
      onPointerMove s p res = { s with activeTransform := none } := by
  intro s p res a ha hw hh hcase
  simp only [onPointerMove, ha]
  rw [if_neg (by push_neg; exact ⟨hw, hh⟩)]
  rcases hcase with h | ⟨item, hfind, htr⟩
  · rw [h]
  · rw [hfind]
    simp only [htr]

/-- C7 witness: a pointer-move with an active gesture on id `"a"` over the
empty registry (the item was deleted mid-drag) returns the state to idle
without touching the registry. -/
theorem c7_witness :
    onPointerMove
        ⟨[], some ⟨"a", TransformMode.move, ⟨⟨0.5, 0.5⟩, 0.25, 0⟩, ⟨0, 0⟩, 1, 0⟩⟩
        ⟨0, 0⟩ ⟨1000, 500, 1⟩ =
      ⟨[], none⟩ :=
  c7_stale_gesture_abort _ _ _ _ rfl (by norm_num) (by norm_num) (Or.inl rfl)

/-- C10: a pointer-move delivered while a gesture is active returns the state
unchanged when the resolution has width 0 or height 0 — nothing is written
and the active transform is kept, whatever the registry holds. -/
theorem c10_zero_resolution_guard :
    ∀ (s : BoardState) (p : Vector) (res : Resolution) (a : ActiveTransform),
      s.activeTransform = some a →
      (res.width = 0 ∨ res.height = 0) →
      onPointerMove s p res = s := by
  intro s p res a ha h0
  simp only [onPointerMove, ha]
  rw [if_pos h0]

/-- C10 witness: at resolution `0x0`, a pointer-move during an active move
gesture over a registry that does contain the active item (which would
otherwise be written) leaves the whole state unchanged. -/
theorem c10_witness :
    onPointerMove
        ⟨[⟨"a", 0.25, some ⟨⟨0.5, 0.5⟩, 0.25, 0⟩, 1, ⟨0.5, 0.5⟩⟩],
          some ⟨"a", TransformMode.move, ⟨⟨0.5, 0.5⟩, 0.25, 0⟩, ⟨0, 0⟩, 1, 0⟩⟩
        ⟨100, 100⟩ ⟨0, 0, 1⟩ =
      ⟨[⟨"a", 0.25, some ⟨⟨0.5, 0.5⟩, 0.25, 0⟩, 1, ⟨0.5, 0.5⟩⟩],
        some ⟨"a", TransformMode.move, ⟨⟨0.5, 0.5⟩, 0.25, 0⟩, ⟨0, 0⟩, 1, 0⟩⟩ :=
  c10_zero_resolution_guard _ _ _ _ rfl (Or.inl rfl)

end Whiteboard
